import Mathlib

/-!
Shallow embedding of `src/app.py`, a FastAPI web-search agent that streams a
model conversation, optionally runs one web-search-and-extract pipeline when
the model emits a tool call, and streams a second grounded answer.

External collaborators (the Groq model streams, the Serper search provider,
aiohttp page fetches and trafilatura extraction) are modelled as oracles passed
in as function arguments; the code of `search_and_parse`, `run_conversation`
and `generate_stream` is translated line by line.  Text is Lean `String`;
Python slicing `s[:n]` is `pyTake n s`.
-/

/-- Python string slicing `s[:n]`: the first `n` characters of `s`. -/
def pyTake (n : Nat) (s : String) : String := String.mk (s.data.take n)

/-- Python f-string rendering of an optional string: `None` prints as "None". -/
def optStr : Option String → String
  | none => "None"
  | some s => s

/-- Outcome of the single `session.get(url, timeout=10)` in `search_and_parse`
(src/app.py lines 59-75), as the Python except-clauses distinguish them:
a response with a status code and body, an `asyncio.TimeoutError`, an
`aiohttp.ClientError` with a message, or any other exception with a message. -/
inductive FetchOutcome
  | ok (status : Nat) (html : String)
  | timeout
  | clientError (msg : String)
  | unexpected (msg : String)
deriving DecidableEq

/-- One entry of the list returned by `search_and_parse`: either
`{'url': url, 'content': text}` or `{'url': url, 'error': msg}`; the
search-failure entry `{'error': msg}` has no url, hence `url : Option String`. -/
inductive PageResult
  | content (url : String) (text : String)
  | error (url : Option String) (msg : String)
deriving DecidableEq

/-- Body of the per-URL loop of `search_and_parse` (src/app.py lines 57-75):
fetch the page, and on HTTP 200 extract the main content with trafilatura
(the oracle `extract`); Python truthiness makes both `None` and the empty
string fall to the "No main content extracted" branch. -/
def fetchUrl (extract : String → Option String) (fetch : String → FetchOutcome)
    (url : String) : PageResult :=
  match fetch url with
  | .ok status html =>
      if status = 200 then
        match extract html with
        | some t =>
            if t.isEmpty then .error (some url) "No main content extracted"
            else .content url (pyTake 1000 t)
        | none => .error (some url) "No main content extracted"
      else .error (some url) ("Failed to retrieve content: HTTP " ++ toString status)
  | .timeout => .error (some url) "Request timed out"
  | .clientError m => .error (some url) ("Client error: " ++ m)
  | .unexpected m => .error (some url) ("Unexpected error: " ++ m)

/-- Outcome of the Serper search request (src/app.py lines 42-49): either an
HTTP response whose parsed JSON body has an `organic` list (each entry's
`link` key may be present or absent, hence `Option String`), or an exception
during the request or the JSON parse, carrying `str(e)`. -/
inductive SearchOutcome
  | response (status : Nat) (organic : List (Option String))
  | exn (msg : String)

/-- `search_and_parse` (src/app.py lines 23-77) over oracles for the search
provider, the page fetches and the extractor.  On a non-200 search status or
a search exception it returns the single error entry; otherwise it maps the
per-URL loop over the links present in the organic results, in order. -/
def search_and_parse (extract : String → Option String)
    (fetch : String → FetchOutcome) (search : SearchOutcome) : List PageResult :=
  match search with
  | .exn m => [.error none ("Error during search API request: " ++ m)]
  | .response status organic =>
      if status = 200 then
        (organic.filterMap id).map (fetchUrl extract fetch)
      else
        [.error none ("Serper API request failed with status code " ++ toString status)]

/-- Content carried by a message: plain text, or the tool-result payload
(`json.dumps(search_results)` in the source, modelled structurally). -/
inductive MsgContent
  | text (s : String)
  | toolResult (rs : List PageResult)
deriving DecidableEq

/-- A chat message as built in `run_conversation`: role, content, and the
optional `name` field used by the function-result message. -/
structure Message where
  role : String
  content : MsgContent
  name : Option String := none
deriving DecidableEq

/-- The first tool call of a chunk delta (`delta.tool_calls[0]`), with its
`arguments` JSON already parsed: `query` is `function_args.get("query")`. -/
structure ToolCall where
  name : String
  query : Option String
deriving DecidableEq

/-- One chunk delta of a model stream: `delta.content` and `delta.tool_calls`
may each be present or `None`; `run_conversation` checks `content` first
(src/app.py line 132) so a chunk with both is treated as text. -/
structure Chunk where
  content : Option String
  toolCall : Option ToolCall
deriving DecidableEq

/-- Oracles for the external collaborators of `run_conversation`: the
trafilatura extractor, the per-URL page fetches, the Serper response to the
query the model supplied, and the second model stream as a function of the
message list it is opened over. -/
structure Env where
  extract : String → Option String
  fetch : String → FetchOutcome
  search : Option String → SearchOutcome
  stream2 : List Message → List Chunk

/-- A call to `client.chat.completions.create`: the message list sent and
whether the `tools` parameter was passed (stream 1 declares the single tool,
stream 2 declares none). -/
structure StreamCall where
  msgs : List Message
  toolsDeclared : Bool
deriving DecidableEq

/-- The fixed system-instruction message of src/app.py lines 88-91. -/
def systemMessage : Message :=
  { role := "system"
    content := .text ("You are an assistant that can search the web and provide information based on the search results. If there are errors in fetching or parsing web content, acknowledge them and try to provide the best response possible with the available information.ALways use the function if you do not know the answer. The function can be used multiple times until tou find the correct answer.") }

/-- The initial two-message conversation of `run_conversation` (lines 87-96). -/
def initMessages (user_prompt : String) : List Message :=
  [systemMessage, { role := "user", content := .text user_prompt }]

/-- The function-result message appended at src/app.py lines 150-154. -/
def toolMessage (rs : List PageResult) : Message :=
  { role := "function", content := .toolResult rs, name := some "search_and_parse" }

/-- Narration fragments yielded for one `search_and_parse` entry
(src/app.py lines 142-147): one fragment for an error entry, two fragments
(a source line and a 200-character preview line) for a content entry. -/
def narrate : PageResult → List String
  | .error url msg => ["Error for " ++ url.getD "unknown URL" ++ ": " ++ msg ++ "\n"]
  | .content url text =>
      ["Found relevant information from: " ++ url ++ "\n",
       "Summary: " ++ pyTake 200 text ++ "...\n\n"]

/-- Text fragments forwarded from a model stream when only `delta.content`
is yielded (src/app.py lines 164-166). -/
def stream2Texts (cs : List Chunk) : List String := cs.filterMap Chunk.content

/-- All fragments yielded by the honored-tool-call branch of
`run_conversation` (src/app.py lines 138-166): the searching notice, the
per-result narrations, the fixed final-response notice, then stream 2's text. -/
def toolUseFrags (env : Env) (q : Option String) (msgs : List Message) : List String :=
  let results := search_and_parse env.extract env.fetch (env.search q)
  ("\nSearching the web for: " ++ optStr q ++ "\n") ::
    ((results.map narrate).flatten ++
      ("\nFinal response incorporating search results:\n" ::
        stream2Texts (env.stream2 (msgs ++ [toolMessage results]))))

/-- Orchestrator state threaded through the `async for chunk in stream` loop:
the `search_performed` flag, the mutable `messages` list, the fragments
yielded so far, the number of `search_and_parse` invocations, and the
completion requests issued so far. -/
structure OrchState where
  search_performed : Bool
  messages : List Message
  output : List String
  searchCalls : Nat
  createCalls : List StreamCall
deriving DecidableEq

/-- One iteration of the stream-1 loop of `run_conversation`
(src/app.py lines 131-166): forward `delta.content` when present; otherwise,
when a tool call is present and no search was performed yet and it names
`search_and_parse`, set the flag, run the pipeline, narrate, append the
function message, open stream 2 without tools and forward its text. -/
def stepChunk (env : Env) (s : OrchState) (c : Chunk) : OrchState :=
  match c.content with
  | some t => { s with output := s.output ++ [t] }
  | none =>
      match c.toolCall with
      | some tc =>
          if s.search_performed = false ∧ tc.name = "search_and_parse" then
            let results := search_and_parse env.extract env.fetch (env.search tc.query)
            let newMsgs := s.messages ++ [toolMessage results]
            { search_performed := true
              messages := newMsgs
              output := s.output ++ toolUseFrags env tc.query s.messages
              searchCalls := s.searchCalls + 1
              createCalls := s.createCalls ++ [{ msgs := newMsgs, toolsDeclared := false }] }
          else s
      | none => s

/-- State of `run_conversation` just after opening stream 1
(src/app.py lines 119-130). -/
def initState (user_prompt : String) : OrchState :=
  { search_performed := false
    messages := initMessages user_prompt
    output := []
    searchCalls := 0
    createCalls := [{ msgs := initMessages user_prompt, toolsDeclared := true }] }

/-- `run_conversation` (src/app.py lines 79-166) over a given stream-1 chunk
sequence: fold the loop body over the chunks.  Its `output` field is the
sequence of fragments the generator yields, in order. -/
def run_conversation (env : Env) (user_prompt : String) (stream1 : List Chunk) :
    OrchState :=
  stream1.foldl (stepChunk env) (initState user_prompt)

/-- A run of the `run_conversation` generator as `generate_stream` observes
it: the fragments it yielded, and the message of the exception it raised
afterwards, if it raised one. -/
structure GenRun where
  frags : List String
  exn : Option String
deriving DecidableEq

/-- `generate_stream` (src/app.py lines 168-179): forward every fragment the
orchestrator yields; if it raises, yield one final `"An error occurred: ..."`
fragment instead of propagating. -/
def generate_stream (r : GenRun) : List String :=
  r.frags ++
    (match r.exn with
     | some m => ["An error occurred: " ++ m]
     | none => [])

/-- Timed embedding of the per-URL loop of `search_and_parse`
(src/app.py lines 56-75).  The loop body `await`s each `session.get` to
completion before the next iteration starts, so iteration `k` begins at the
time iteration `k-1` finished.  `fetchTime url` is the duration of that URL's
fetch-and-extract; each entry records `(result, startTime, finishTime)`. -/
def timedLoop (extract : String → Option String) (fetch : String → FetchOutcome)
    (fetchTime : String → Nat) : Nat → List String → List (PageResult × Nat × Nat)
  | _, [] => []
  | t, url :: rest =>
      (fetchUrl extract fetch url, t, t + fetchTime url) ::
        timedLoop extract fetch fetchTime (t + fetchTime url) rest

/-- Time at which the timed loop (and so the pipeline) returns: the latest
finish time of its entries, or the start time when there are no URLs. -/
def loopEnd (extract : String → Option String) (fetch : String → FetchOutcome)
    (fetchTime : String → Nat) (t0 : Nat) (urls : List String) : Nat :=
  ((timedLoop extract fetch fetchTime t0 urls).map (fun e => e.2.2)).foldl max t0

/-- Modelled from the spec: "the per-URL fetch+extract operations run as a
bounded fan-out of concurrent tasks joined before the pipeline returns" —
every per-URL task starts at the join point `t0` and the pipeline returns at
the latest finish, i.e. `t0` plus the slowest single fetch. -/
def fanOutSpec (extract : String → Option String) (fetch : String → FetchOutcome)
    (fetchTime : String → Nat) (t0 : Nat) (urls : List String) :
    List (PageResult × Nat × Nat) :=
  urls.map fun url => (fetchUrl extract fetch url, t0, t0 + fetchTime url)

/-- Reachable-state invariant of the stream-1 loop: either no search has been
performed yet and the state is as freshly initialized, or exactly one search
has been performed for some query and the state records exactly its effects. -/
def ReachedState (env : Env) (p : String) (s : OrchState) : Prop :=
  (s.search_performed = false ∧ s.messages = initMessages p ∧ s.searchCalls = 0 ∧
    s.createCalls = [{ msgs := initMessages p, toolsDeclared := true }]) ∨
  (s.search_performed = true ∧ ∃ q,
    s.messages = initMessages p ++
      [toolMessage (search_and_parse env.extract env.fetch (env.search q))] ∧
    s.searchCalls = 1 ∧
    s.createCalls = [{ msgs := initMessages p, toolsDeclared := true },
      { msgs := initMessages p ++
          [toolMessage (search_and_parse env.extract env.fetch (env.search q))]
        toolsDeclared := false }])

/-- A concrete collaborator environment used to evaluate the embedding on
closed inputs: every page fetch times out, the search answers HTTP 200 with
no organic results, and stream 2 is empty. -/
def env0 : Env :=
  { extract := fun _ => none
    fetch := fun _ => .timeout
    search := fun _ => .response 200 []
    stream2 := fun _ => [] }

/-- A concrete environment whose search returns one URL whose page fetches
with HTTP 200 and extracts to "Lorem", and whose stream 2 yields one text
chunk "ans". -/
def env1 : Env :=
  { extract := fun _ => some "Lorem"
    fetch := fun _ => .ok 200 "<html>"
    search := fun _ => .response 200 [some "http://x"]
    stream2 := fun _ => [{ content := some "ans", toolCall := none }] }

/-- A concrete environment whose search provider answers HTTP 500. -/
def env500 : Env :=
  { extract := fun _ => none
    fetch := fun _ => .timeout
    search := fun _ => .response 500 []
    stream2 := fun _ => [{ content := some "ans", toolCall := none }] }


theorem mk_data (s : String) : String.mk s.data = s := by
  cases s
  rfl

theorem data_append_eq (s t : String) : (s ++ t).data = s.data ++ t.data := by
  cases s
  cases t
  rfl

/-- Strings with distinct leading characters are distinct, whatever follows. -/
theorem append_ne_of_head (s t u v : String) (c d : Char) (cs ds : List Char)
    (hs : s.data = c :: cs) (ht : t.data = d :: ds) (hcd : c ≠ d) :
    s ++ u ≠ t ++ v := by
  intro h
  have h2 : (s ++ u).data = (t ++ v).data := congrArg String.data h
  rw [data_append_eq, data_append_eq, hs, ht] at h2
  exact hcd (List.head_eq_of_cons_eq h2)

/-- Splitting the stream-1 loop of `run_conversation` at any point. -/
theorem run_conversation_append (env : Env) (p : String) (pre post : List Chunk) :
    run_conversation env p (pre ++ post) =
      post.foldl (stepChunk env) (run_conversation env p pre) := by
  simp [run_conversation, List.foldl_append]

/-- A text chunk only appends its content to the output. -/
theorem stepChunk_text (env : Env) (s : OrchState) (t : String) (tc : Option ToolCall) :
    stepChunk env s ⟨some t, tc⟩ = { s with output := s.output ++ [t] } := rfl

/-- A chunk with neither content nor tool call leaves the state unchanged. -/
theorem stepChunk_none (env : Env) (s : OrchState) :
    stepChunk env s ⟨none, none⟩ = s := rfl

/-- A non-text chunk is ignored once the flag is set, and likewise when its
tool call does not name `search_and_parse`. -/
theorem stepChunk_ignored (env : Env) (s : OrchState) (tc : ToolCall)
    (h : ¬(s.search_performed = false ∧ tc.name = "search_and_parse")) :
    stepChunk env s ⟨none, some tc⟩ = s := by
  simp only [stepChunk]
  rw [if_neg h]

/-- The honoured tool-call branch (src/app.py lines 136-166) in one step. -/
theorem stepChunk_honored (env : Env) (s : OrchState) (q : Option String)
    (h : s.search_performed = false) :
    stepChunk env s ⟨none, some ⟨"search_and_parse", q⟩⟩ =
      { search_performed := true
        messages := s.messages ++
          [toolMessage (search_and_parse env.extract env.fetch (env.search q))]
        output := s.output ++ toolUseFrags env q s.messages
        searchCalls := s.searchCalls + 1
        createCalls := s.createCalls ++
          [{ msgs := s.messages ++
               [toolMessage (search_and_parse env.extract env.fetch (env.search q))]
             toolsDeclared := false }] } := by
  simp only [stepChunk]
  rw [if_pos ⟨h, by simp⟩]

/-- After the flag is set, the rest of stream 1 only forwards text content;
every other field of the state is left untouched. -/
theorem foldl_step_performed (env : Env) (cs : List Chunk) (s : OrchState)
    (hs : s.search_performed = true) :
    cs.foldl (stepChunk env) s =
      { s with output := s.output ++ cs.filterMap Chunk.content } := by
  induction cs generalizing s with
  | nil => simp
  | cons c rest ih =>
    obtain ⟨cc, ct⟩ := c
    cases cc with
    | some t =>
        rw [List.foldl_cons, stepChunk_text, ih { s with output := s.output ++ [t] } hs]
        simp [List.filterMap_cons, List.append_assoc]
    | none =>
        cases ct with
        | none =>
            rw [List.foldl_cons, stepChunk_none, ih s hs]
            simp [List.filterMap_cons]
        | some tc =>
            rw [List.foldl_cons, stepChunk_ignored env s tc (by simp [hs]), ih s hs]
            simp [List.filterMap_cons]

/-- When no chunk carries a tool call, the loop only forwards text content,
whatever the flag's value. -/
theorem foldl_step_no_tool (env : Env) (cs : List Chunk) (s : OrchState)
    (h : ∀ c ∈ cs, c.toolCall = none) :
    cs.foldl (stepChunk env) s =
      { s with output := s.output ++ cs.filterMap Chunk.content } := by
  induction cs generalizing s with
  | nil => simp
  | cons c rest ih =>
    obtain ⟨cc, ct⟩ := c
    have hct : ct = none := h ⟨cc, ct⟩ (List.mem_cons_self _ _)
    subst hct
    cases cc with
    | some t =>
        rw [List.foldl_cons, stepChunk_text,
          ih { s with output := s.output ++ [t] } (fun c hc => h c (List.mem_cons_of_mem _ hc))]
        simp [List.filterMap_cons, List.append_assoc]
    | none =>
        rw [List.foldl_cons, stepChunk_none, ih s (fun c hc => h c (List.mem_cons_of_mem _ hc))]
        simp [List.filterMap_cons]

/-- Every loop iteration preserves the reachable-state invariant. -/
theorem reached_step (env : Env) (p : String) (s : OrchState) (c : Chunk)
    (h : ReachedState env p s) : ReachedState env p (stepChunk env s c) := by
  obtain ⟨cc, ct⟩ := c
  cases cc with
  | some t =>
      rw [stepChunk_text]
      rcases h with ⟨h1, h2, h3, h4⟩ | ⟨h1, q, h2, h3, h4⟩
      · exact Or.inl ⟨h1, h2, h3, h4⟩
      · exact Or.inr ⟨h1, q, h2, h3, h4⟩
  | none =>
      cases ct with
      | none =>
          rw [stepChunk_none]
          exact h
      | some tc =>
          by_cases hcond : s.search_performed = false ∧ tc.name = "search_and_parse"
          · rcases h with ⟨h1, h2, h3, h4⟩ | ⟨h1, q, h2, h3, h4⟩
            · obtain ⟨tcn, tcq⟩ := tc
              obtain ⟨-, hname⟩ := hcond
              simp only [ToolCall.name] at hname
              subst hname
              rw [stepChunk_honored env s tcq h1]
              refine Or.inr ⟨rfl, tcq, ?_, ?_, ?_⟩ <;> simp [h2, h3, h4]
            · exact absurd hcond.1 (by simp [h1])
          · rw [stepChunk_ignored env s tc hcond]
            exact h

/-- Every state `run_conversation` reaches satisfies the invariant. -/
theorem run_reached (env : Env) (p : String) (cs : List Chunk) :
    ReachedState env p (run_conversation env p cs) := by
  rw [run_conversation]
  have hgen : ∀ s, ReachedState env p s →
      ReachedState env p (cs.foldl (stepChunk env) s) := by
    induction cs with
    | nil => exact fun s hs => hs
    | cons c rest ih => exact fun s hs => ih _ (reached_step env p s c hs)
  exact hgen _ (Or.inl ⟨rfl, rfl, rfl, rfl⟩)

/-- Master decomposition of a run whose stream honours a tool call: a prefix
that performed no search, the honoured chunk, then the rest of stream 1. -/
theorem run_honored_split (env : Env) (p : String) (q : Option String)
    (pre post : List Chunk)
    (h : (run_conversation env p pre).search_performed = false) :
    run_conversation env p (pre ++ ⟨none, some ⟨"search_and_parse", q⟩⟩ :: post) =
      { search_performed := true
        messages := (run_conversation env p pre).messages ++
          [toolMessage (search_and_parse env.extract env.fetch (env.search q))]
        output := (run_conversation env p pre).output ++
          toolUseFrags env q (run_conversation env p pre).messages ++
          post.filterMap Chunk.content
        searchCalls := (run_conversation env p pre).searchCalls + 1
        createCalls := (run_conversation env p pre).createCalls ++
          [{ msgs := (run_conversation env p pre).messages ++
               [toolMessage (search_and_parse env.extract env.fetch (env.search q))]
             toolsDeclared := false }] } := by
  rw [run_conversation_append, List.foldl_cons, stepChunk_honored env _ q h,
    foldl_step_performed env post _ rfl]

/-- Strings whose character lists begin with different characters differ. -/
theorem ne_of_data_head (s t : String) (c d : Char) (cs ds : List Char)
    (hs : s.data = c :: cs) (ht : t.data = d :: ds) (hcd : c ≠ d) : s ≠ t := by
  intro h
  rw [h] at hs
  rw [ht] at hs
  exact hcd (List.head_eq_of_cons_eq hs).symm

/-- The timed sequential loop yields exactly the pipeline's per-URL results,
in the provider's order. -/
theorem timedLoop_results (extract : String → Option String)
    (fetch : String → FetchOutcome) (fetchTime : String → Nat) :
    ∀ (urls : List String) (t0 : Nat),
      (timedLoop extract fetch fetchTime t0 urls).map Prod.fst =
        urls.map (fetchUrl extract fetch) := by
  intro urls
  induction urls with
  | nil => intro t0; simp [timedLoop]
  | cons u rest ih => intro t0; simp [timedLoop, ih]

/-- In the sequential loop, the k-th fetch starts at `t0` plus the durations
of the k fetches before it: it begins only when its predecessor finished. -/
theorem timedLoop_start (extract : String → Option String)
    (fetch : String → FetchOutcome) (fetchTime : String → Nat) :
    ∀ (urls : List String) (t0 i : Nat),
      ((timedLoop extract fetch fetchTime t0 urls)[i]?).map (fun e => e.2.1) =
        (urls[i]?).map (fun _ => t0 + ((urls.take i).map fetchTime).sum) := by
  intro urls
  induction urls with
  | nil => intro t0 i; simp [timedLoop]
  | cons u rest ih =>
      intro t0 i
      cases i with
      | zero => simp [timedLoop]
      | succ j =>
          simp only [timedLoop, List.getElem?_cons_succ, List.take_succ_cons,
            List.map_cons, List.sum_cons]
          rw [ih (t0 + fetchTime u) j]
          cases h : rest[j]? <;> simp [Nat.add_assoc]

/-- The sequential loop returns at `t0` plus the sum of all fetch durations. -/
theorem loopEnd_eq (extract : String → Option String)
    (fetch : String → FetchOutcome) (fetchTime : String → Nat) :
    ∀ (urls : List String) (t0 : Nat),
      loopEnd extract fetch fetchTime t0 urls = t0 + (urls.map fetchTime).sum := by
  intro urls
  induction urls with
  | nil => intro t0; simp [loopEnd, timedLoop]
  | cons u rest ih =>
      intro t0
      rw [loopEnd, timedLoop]
      simp only [List.map_cons, List.foldl_cons, List.sum_cons]
      rw [Nat.max_eq_right (Nat.le_add_right _ _)]
      have h2 := ih (t0 + fetchTime u)
      rw [loopEnd] at h2
      rw [h2, Nat.add_assoc]

/-- The message list can only grow as stream 1 is consumed further. -/
theorem run_messages_mono (env : Env) (p : String) (pre post : List Chunk) :
    (run_conversation env p pre).messages <+:
      (run_conversation env p (pre ++ post)).messages := by
  cases hperf : (run_conversation env p pre).search_performed with
  | true =>
      rw [run_conversation_append, foldl_step_performed env post _ hperf]
  | false =>
      rcases run_reached env p pre with ⟨-, h2, -, -⟩ | ⟨h1, -⟩
      · rw [h2]
        rcases run_reached env p (pre ++ post) with ⟨-, g2, -, -⟩ | ⟨-, q, g2, -, -⟩
        · rw [g2]
        · rw [g2]
          exact List.prefix_append _ _
      · rw [hperf] at h1
        exact absurd h1 (by simp)

/-- Claim C1, counterexample: in a stream whose first tool-invocation signal
names a tool other than `search_and_parse`, that first signal is not honoured
(the stream up to and including it performs no search), while the second
signal is honoured (the full stream performs one search).  So it is false
that only the first tool-invocation signal of a conversation is honoured and
every later one ignored: `search_performed` is set only when the signal names
`search_and_parse`, not on the first signal. -/
theorem C1_counterexample :
    (run_conversation env0 "p"
      [{ content := none, toolCall := some { name := "foo", query := some "x" } }]).searchCalls = 0 ∧
    (run_conversation env0 "p"
      [{ content := none, toolCall := some { name := "foo", query := some "x" } },
       { content := none, toolCall := some { name := "search_and_parse", query := some "x" } }]).searchCalls = 1 :=
  ⟨rfl, rfl⟩

/-- Claim C1 (amended): `search_and_parse` runs at most once per request,
whatever stream 1 contains — a tool-invocation signal is honoured only when
no search has been performed yet and it names `search_and_parse` — and once a
search has been performed, processing any remainder of stream 1 leaves the
search count unchanged, so every signal after the honoured one is ignored. -/
theorem C1_single_search (env : Env) (p : String) (cs : List Chunk) :
    (run_conversation env p cs).searchCalls ≤ 1 ∧
    ∀ pre post, cs = pre ++ post →
      (run_conversation env p pre).search_performed = true →
      (run_conversation env p cs).searchCalls =
        (run_conversation env p pre).searchCalls := by
  constructor
  · rcases run_reached env p cs with ⟨-, -, h3, -⟩ | ⟨-, q, -, h3, -⟩ <;> simp [h3]
  · intro pre post hsplit hperf
    subst hsplit
    rw [run_conversation_append, foldl_step_performed env post _ hperf]

/-- Claim C2, counterexample: with two URLs each fetching in 5 time units,
the sequential loop starts the second fetch only at time 5 — when the first
has finished — and returns at time 10, the sum of the two fetch times,
whereas the spec's concurrent fan-out starts both fetches at time 0 and joins
at time 5, the slowest single fetch.  The loop's completion time is the sum
of the fetch times, not the maximum. -/
theorem C2_counterexample :
    (timedLoop env0.extract env0.fetch (fun _ => 5) 0 ["a", "b"]).map (fun e => e.2) =
      [(0, 5), (5, 10)] ∧
    (fanOutSpec env0.extract env0.fetch (fun _ => 5) 0 ["a", "b"]).map (fun e => e.2) =
      [(0, 5), (0, 5)] ∧
    loopEnd env0.extract env0.fetch (fun _ => 5) 0 ["a", "b"] = 10 ∧
    (["a", "b"].map (fun _ => (5 : Nat))).foldl max 0 = 5 ∧
    (10 : Nat) ≠ 5 :=
  ⟨rfl, rfl, rfl, rfl, by decide⟩

/-- Claim C2 (amended): the per-URL fetch+extract operations of
`search_and_parse` run sequentially in the provider's order — the k-th fetch
starts only at the search-return time `t0` plus the durations of the k
fetches before it — the timed loop produces exactly the pipeline's per-URL
results in order, and the loop returns at `t0` plus the sum of all fetch
durations (not the slowest single fetch plus fixed overhead). -/
theorem C2_sequential_pipeline (extract : String → Option String)
    (fetch : String → FetchOutcome) (fetchTime : String → Nat) (t0 : Nat)
    (urls : List String) :
    (timedLoop extract fetch fetchTime t0 urls).map Prod.fst =
      urls.map (fetchUrl extract fetch) ∧
    (∀ i : Nat,
      ((timedLoop extract fetch fetchTime t0 urls)[i]?).map (fun e => e.2.1) =
        (urls[i]?).map (fun _ => t0 + ((urls.take i).map fetchTime).sum)) ∧
    loopEnd extract fetch fetchTime t0 urls = t0 + (urls.map fetchTime).sum :=
  ⟨timedLoop_results extract fetch fetchTime urls t0,
   fun i => timedLoop_start extract fetch fetchTime urls t0 i,
   loopEnd_eq extract fetch fetchTime urls t0⟩

/-- Claim C3, counterexample: with a search returning one URL whose page
yields content, the honoured tool call produces five fragments — the
searching notice, TWO narration fragments for the single PageResult (a source
line and a "Summary:" line), the final-response notice, and stream 2's one
text fragment — so the output does not contain exactly one narration fragment
per PageResult: 5 is not 1 + 1 + 1 + 1. -/
theorem C3_counterexample :
    (run_conversation env1 "p"
        [{ content := none,
           toolCall := some { name := "search_and_parse", query := some "q" } }]).output =
      ["\nSearching the web for: q\n",
       "Found relevant information from: http://x\n",
       "Summary: Lorem...\n\n",
       "\nFinal response incorporating search results:\n",
       "ans"] ∧
    (search_and_parse env1.extract env1.fetch (env1.search (some "q"))).length = 1 ∧
    stream2Texts (env1.stream2 (initMessages "p" ++
      [toolMessage (search_and_parse env1.extract env1.fetch (env1.search (some "q")))])) =
      ["ans"] ∧
    (run_conversation env1 "p"
        [{ content := none,
           toolCall := some { name := "search_and_parse", query := some "q" } }]).output.length ≠
      1 + (search_and_parse env1.extract env1.fetch (env1.search (some "q"))).length + 1 +
        (stream2Texts (env1.stream2 (initMessages "p" ++
          [toolMessage (search_and_parse env1.extract env1.fetch (env1.search (some "q")))]))).length :=
  ⟨rfl, rfl, rfl, by decide⟩

/-- Claim C3 (amended): when a tool-invocation signal is honoured with query
`q`, the orchestrator-generated part of the output is the fragment
"\nSearching the web for: q\n"; then, per PageResult in the pipeline's order,
one error-narration fragment naming the URL for an error entry, or two
fragments for a content entry (a source line naming the URL and a "Summary:"
line carrying the 200-character preview); then the fixed fragment
"\nFinal response incorporating search results:\n"; then stream 2's text
fragments in order — with stream 1's remaining text after them. -/
theorem C3_tool_path_output (env : Env) (p : String) (q : Option String)
    (pre post : List Chunk)
    (h : (run_conversation env p pre).search_performed = false) :
    (run_conversation env p
        (pre ++ ⟨none, some ⟨"search_and_parse", q⟩⟩ :: post)).output =
      (run_conversation env p pre).output ++
        (("\nSearching the web for: " ++ optStr q ++ "\n") ::
          (((search_and_parse env.extract env.fetch (env.search q)).map narrate).flatten ++
            ("\nFinal response incorporating search results:\n" ::
              stream2Texts (env.stream2 ((run_conversation env p pre).messages ++
                [toolMessage (search_and_parse env.extract env.fetch (env.search q))]))))) ++
        post.filterMap Chunk.content ∧
    (∀ url msg, narrate (.error url msg) =
      ["Error for " ++ url.getD "unknown URL" ++ ": " ++ msg ++ "\n"]) ∧
    (∀ url text, narrate (.content url text) =
      ["Found relevant information from: " ++ url ++ "\n",
       "Summary: " ++ pyTake 200 text ++ "...\n\n"]) := by
  refine ⟨?_, fun url msg => rfl, fun url text => rfl⟩
  rw [run_honored_split env p q pre post h]
  rfl

/-- Claim C3, witness: the amended output shape on a concrete conversation
with text before the honoured call and after stream 2. -/
theorem C3_tool_path_output_witness :
    (run_conversation env1 "p"
        [{ content := some "hi", toolCall := none },
         { content := none,
           toolCall := some { name := "search_and_parse", query := some "q" } },
         { content := some "tail", toolCall := none }]).output =
      ["hi",
       "\nSearching the web for: q\n",
       "Found relevant information from: http://x\n",
       "Summary: Lorem...\n\n",
       "\nFinal response incorporating search results:\n",
       "ans", "tail"] := by
  have h := (C3_tool_path_output env1 "p" (some "q")
      [{ content := some "hi", toolCall := none }]
      [{ content := some "tail", toolCall := none }] rfl).1
  exact h.trans rfl

/-- Claim C4: when every chunk of model stream 1 carries plain text content
and no tool call, the output stream equals the forwarded text fragments in
arrival order exactly, no search runs, and the only completion request ever
made is stream 1's over the initial messages — model stream 2 is never
opened. -/
theorem C4_no_tool_path (env : Env) (p : String) (cs : List Chunk)
    (h : ∀ c ∈ cs, c.toolCall = none ∧ c.content.isSome = true) :
    (run_conversation env p cs).output = cs.filterMap Chunk.content ∧
    (run_conversation env p cs).createCalls =
      [{ msgs := initMessages p, toolsDeclared := true }] ∧
    (run_conversation env p cs).searchCalls = 0 := by
  rw [run_conversation, foldl_step_no_tool env cs _ (fun c hc => (h c hc).1)]
  exact ⟨rfl, rfl, rfl⟩

/-- Claim C4, witness: a two-fragment plain-text stream is forwarded exactly,
with no search and no second completion request. -/
theorem C4_no_tool_path_witness :
    (run_conversation env0 "p"
      [{ content := some "a", toolCall := none },
       { content := some "b", toolCall := none }]).output = ["a", "b"] ∧
    (run_conversation env0 "p"
      [{ content := some "a", toolCall := none },
       { content := some "b", toolCall := none }]).createCalls =
      [{ msgs := initMessages "p", toolsDeclared := true }] ∧
    (run_conversation env0 "p"
      [{ content := some "a", toolCall := none },
       { content := some "b", toolCall := none }]).searchCalls = 0 := by
  have h := C4_no_tool_path env0 "p"
    [{ content := some "a", toolCall := none },
     { content := some "b", toolCall := none }] (by decide)
  exact ⟨h.1.trans rfl, h.2.1, h.2.2⟩

/-- Claim C5: for a search response with HTTP 200, `search_and_parse`
produces exactly one PageResult per returned link, in the provider's order;
entry i is determined by its own URL's fetch outcome alone, so one URL's
failure never prevents or changes another URL's entry; each entry holds
content or exactly one error for its URL; and the failure classes — timeout,
HTTP status, transport (client error), unexpected, and empty extraction —
carry pairwise distinct messages. -/
theorem C5_per_url_containment (extract : String → Option String)
    (fetch g : String → FetchOutcome) (organic : List (Option String)) :
    (search_and_parse extract fetch (.response 200 organic)).length =
      (organic.filterMap id).length ∧
    (∀ i : Nat, (search_and_parse extract fetch (.response 200 organic))[i]? =
      ((organic.filterMap id)[i]?).map (fetchUrl extract fetch)) ∧
    (∀ i : Nat, ∀ url ∈ (organic.filterMap id)[i]?, g url = fetch url →
      (search_and_parse extract g (.response 200 organic))[i]? =
        (search_and_parse extract fetch (.response 200 organic))[i]?) ∧
    (∀ url, (∃ t, fetchUrl extract fetch url = PageResult.content url t) ∨
      (∃ msg, fetchUrl extract fetch url = PageResult.error (some url) msg)) ∧
    (∀ m m2 st : String,
      "Request timed out" ≠ "Client error: " ++ m ∧
      "Request timed out" ≠ "Unexpected error: " ++ m ∧
      "Request timed out" ≠ "Failed to retrieve content: HTTP " ++ st ∧
      "Request timed out" ≠ "No main content extracted" ∧
      "No main content extracted" ≠ "Client error: " ++ m ∧
      "No main content extracted" ≠ "Unexpected error: " ++ m ∧
      "No main content extracted" ≠ "Failed to retrieve content: HTTP " ++ st ∧
      "Client error: " ++ m ≠ "Unexpected error: " ++ m2 ∧
      "Client error: " ++ m ≠ "Failed to retrieve content: HTTP " ++ st ∧
      "Unexpected error: " ++ m ≠ "Failed to retrieve content: HTTP " ++ st) := by
  refine ⟨by simp [search_and_parse], fun i => ?_, fun i url hmem hg => ?_, fun url => ?_, ?_⟩
  · simp [search_and_parse, List.getElem?_map]
  · rw [Option.mem_def] at hmem
    have hfg : fetchUrl extract g url = fetchUrl extract fetch url := by
      unfold fetchUrl
      rw [hg]
    simp [search_and_parse, List.getElem?_map, hmem, hfg]
  · cases hf : fetch url with
    | ok status html =>
        by_cases hst : status = 200
        · subst hst
          cases he : extract html with
          | some t =>
              by_cases hemp : t.isEmpty = true
              · exact Or.inr ⟨"No main content extracted",
                  by simp [fetchUrl, hf, he, hemp]⟩
              · exact Or.inl ⟨pyTake 1000 t, by simp [fetchUrl, hf, he, hemp]⟩
          | none =>
              exact Or.inr ⟨"No main content extracted", by simp [fetchUrl, hf, he]⟩
        · exact Or.inr ⟨"Failed to retrieve content: HTTP " ++ toString status,
            by simp [fetchUrl, hf, hst]⟩
    | timeout => exact Or.inr ⟨"Request timed out", by simp [fetchUrl, hf]⟩
    | clientError m3 => exact Or.inr ⟨"Client error: " ++ m3, by simp [fetchUrl, hf]⟩
    | unexpected m3 => exact Or.inr ⟨"Unexpected error: " ++ m3, by simp [fetchUrl, hf]⟩
  · intro m m2 st
    refine ⟨?_, ?_, ?_, by decide, ?_, ?_, ?_, ?_, ?_, ?_⟩
    · exact ne_of_data_head _ _ 'R' 'C' "equest timed out".data
        ("lient error: ".data ++ m.data) rfl (by rw [data_append_eq]; rfl) (by decide)
    · exact ne_of_data_head _ _ 'R' 'U' "equest timed out".data
        ("nexpected error: ".data ++ m.data) rfl (by rw [data_append_eq]; rfl) (by decide)
    · exact ne_of_data_head _ _ 'R' 'F' "equest timed out".data
        ("ailed to retrieve content: HTTP ".data ++ st.data) rfl
        (by rw [data_append_eq]; rfl) (by decide)
    · exact ne_of_data_head _ _ 'N' 'C' "o main content extracted".data
        ("lient error: ".data ++ m.data) rfl (by rw [data_append_eq]; rfl) (by decide)
    · exact ne_of_data_head _ _ 'N' 'U' "o main content extracted".data
        ("nexpected error: ".data ++ m.data) rfl (by rw [data_append_eq]; rfl) (by decide)
    · exact ne_of_data_head _ _ 'N' 'F' "o main content extracted".data
        ("ailed to retrieve content: HTTP ".data ++ st.data) rfl
        (by rw [data_append_eq]; rfl) (by decide)
    · exact ne_of_data_head _ _ 'C' 'U' ("lient error: ".data ++ m.data)
        ("nexpected error: ".data ++ m2.data) (by rw [data_append_eq]; rfl)
        (by rw [data_append_eq]; rfl) (by decide)
    · exact ne_of_data_head _ _ 'C' 'F' ("lient error: ".data ++ m.data)
        ("ailed to retrieve content: HTTP ".data ++ st.data) (by rw [data_append_eq]; rfl)
        (by rw [data_append_eq]; rfl) (by decide)
    · exact ne_of_data_head _ _ 'U' 'F' ("nexpected error: ".data ++ m.data)
        ("ailed to retrieve content: HTTP ".data ++ st.data) (by rw [data_append_eq]; rfl)
        (by rw [data_append_eq]; rfl) (by decide)

/-- Claim C6: when the search provider answers with a non-200 status or the
request raises, `search_and_parse` returns a list with exactly one error
entry (it does not raise), and the orchestrator that honoured the tool call
still runs to completion: it appends the function-result message carrying
that single-error result, issues the stream-2 completion request, yields the
final-response fragment and stream 2's text, and then finishes stream 1. -/
theorem C6_search_failure (env : Env) (p : String) (q : Option String)
    (pre post : List Chunk)
    (hpre : (run_conversation env p pre).search_performed = false)
    (hfail : (∃ st organic, env.search q = .response st organic ∧ st ≠ 200) ∨
      ∃ m, env.search q = .exn m) :
    ∃ msg,
      search_and_parse env.extract env.fetch (env.search q) =
        [PageResult.error none msg] ∧
      (run_conversation env p
          (pre ++ ⟨none, some ⟨"search_and_parse", q⟩⟩ :: post)).messages =
        (run_conversation env p pre).messages ++
          [toolMessage [PageResult.error none msg]] ∧
      (run_conversation env p
          (pre ++ ⟨none, some ⟨"search_and_parse", q⟩⟩ :: post)).createCalls =
        (run_conversation env p pre).createCalls ++
          [{ msgs := (run_conversation env p pre).messages ++
               [toolMessage [PageResult.error none msg]]
             toolsDeclared := false }] ∧
      (run_conversation env p
          (pre ++ ⟨none, some ⟨"search_and_parse", q⟩⟩ :: post)).output =
        (run_conversation env p pre).output ++
          (("\nSearching the web for: " ++ optStr q ++ "\n") ::
            ("Error for unknown URL: " ++ msg ++ "\n") ::
            "\nFinal response incorporating search results:\n" ::
            stream2Texts (env.stream2 ((run_conversation env p pre).messages ++
              [toolMessage [PageResult.error none msg]]))) ++
          post.filterMap Chunk.content := by
  have hone : ∃ msg, search_and_parse env.extract env.fetch (env.search q) =
      [PageResult.error none msg] := by
    rcases hfail with ⟨st, organic, hq, hne⟩ | ⟨m, hq⟩
    · exact ⟨"Serper API request failed with status code " ++ toString st,
        by rw [hq]; simp [search_and_parse, hne]⟩
    · exact ⟨"Error during search API request: " ++ m,
        by rw [hq]; simp [search_and_parse]⟩
  obtain ⟨msg, hmsg⟩ := hone
  refine ⟨msg, hmsg, ?_, ?_, ?_⟩ <;>
    rw [run_honored_split env p q pre post hpre] <;>
    simp [toolUseFrags, hmsg, narrate]

/-- Claim C6, witness: with the search provider answering HTTP 500 on a
concrete conversation, the pipeline returns one error entry and the
orchestrator still narrates it, opens stream 2 and finishes. -/
theorem C6_search_failure_witness :
    (run_conversation env500 "p"
        [{ content := none,
           toolCall := some { name := "search_and_parse", query := some "q" } }]).output =
      ["\nSearching the web for: q\n",
       "Error for unknown URL: Serper API request failed with status code 500\n",
       "\nFinal response incorporating search results:\n",
       "ans"] := by
  obtain ⟨msg, h1, -, -, h4⟩ := C6_search_failure env500 "p" (some "q") [] [] rfl
    (Or.inl ⟨500, [], rfl, by decide⟩)
  have h5 : [PageResult.error none msg] =
      [PageResult.error none "Serper API request failed with status code 500"] :=
    h1.symm.trans rfl
  have h6 := List.head_eq_of_cons_eq h5
  injection h6 with h7 h8
  subst h8
  exact h4.trans rfl

/-- Claim C7: when a URL's page fetches with HTTP 200 and extracts to a
nonempty text `t`, the PageResult stores exactly the first 1000 characters of
`t` — text of 1000 characters or fewer is stored unchanged, longer text is
cut to exactly 1000 — and the 200-character preview in the content narration
is a prefix of the stored content. -/
theorem C7_truncation (extract : String → Option String)
    (fetch : String → FetchOutcome) (url html t : String)
    (hf : fetch url = .ok 200 html) (he : extract html = some t)
    (hne : t.isEmpty = false) :
    fetchUrl extract fetch url = PageResult.content url (pyTake 1000 t) ∧
    (pyTake 1000 t).data = t.data.take 1000 ∧
    (t.data.length ≤ 1000 → pyTake 1000 t = t) ∧
    (1000 ≤ t.data.length → (pyTake 1000 t).data.length = 1000) ∧
    narrate (PageResult.content url (pyTake 1000 t)) =
      ["Found relevant information from: " ++ url ++ "\n",
       "Summary: " ++ pyTake 200 (pyTake 1000 t) ++ "...\n\n"] ∧
    (pyTake 200 (pyTake 1000 t)).data <+: (pyTake 1000 t).data := by
  refine ⟨by simp [fetchUrl, hf, he, hne], rfl, ?_, ?_, rfl, ?_⟩
  · intro hle
    rw [pyTake, List.take_of_length_le hle, mk_data]
  · intro hge
    rw [pyTake]
    show (t.data.take 1000).length = 1000
    rw [List.length_take, Nat.min_eq_left hge]
  · show (t.data.take 1000).take 200 <+: t.data.take 1000
    exact List.take_prefix 200 (t.data.take 1000)

/-- Claim C7, witness: truncation and preview-prefix evaluated on the
concrete page of `env1`. -/
theorem C7_truncation_witness :
    fetchUrl env1.extract env1.fetch "http://x" =
      PageResult.content "http://x" (pyTake 1000 "Lorem") ∧
    ("Lorem".data.length ≤ 1000 → pyTake 1000 "Lorem" = "Lorem") ∧
    (pyTake 200 (pyTake 1000 "Lorem")).data <+: (pyTake 1000 "Lorem").data := by
  have h := C7_truncation env1.extract env1.fetch "http://x" "<html>" "Lorem" rfl rfl rfl
  exact ⟨h.1, h.2.2.1, h.2.2.2.2.2⟩

/-- Claim C8: when the orchestrator raises after yielding its fragments,
`generate_stream` forwards those fragments and then emits exactly one final
"An error occurred: ..." fragment carrying the exception's message, after
which the stream ends — that fragment is the last, exactly one fragment was
added, and the adapter itself returns normally instead of propagating. -/
theorem C8_failure_boundary (r : GenRun) (m : String) (h : r.exn = some m) :
    generate_stream r = r.frags ++ ["An error occurred: " ++ m] ∧
    (generate_stream r).getLast? = some ("An error occurred: " ++ m) ∧
    (generate_stream r).length = r.frags.length + 1 := by
  have h1 : generate_stream r = r.frags ++ ["An error occurred: " ++ m] := by
    rw [generate_stream, h]
  refine ⟨h1, ?_, ?_⟩
  · rw [h1]
    exact List.getLast?_concat ..
  · rw [h1]
    simp

/-- Claim C8, witness: the failure boundary on a concrete run that yielded
one fragment and then raised. -/
theorem C8_failure_boundary_witness :
    generate_stream { frags := ["a"], exn := some "boom" } =
      ["a", "An error occurred: boom"] :=
  (C8_failure_boundary { frags := ["a"], exn := some "boom" } "boom" rfl).1.trans rfl

/-- Claim C9: in every conversation the message list begins with the fixed
system-instruction message followed by the user message and is only ever
extended at the end (the list at any earlier point of the stream is a prefix
of the later list); at most one message is ever appended over the
conversation's lifetime, and an appended message is the function-result
message; the first completion request is stream 1's over the initial two
messages with the tool declared, and any further completion request is over
the final extended message list with no tool declared, so the model cannot
invoke the tool again. -/
theorem C9_conversation_state (env : Env) (p : String) (cs : List Chunk) :
    initMessages p <+: (run_conversation env p cs).messages ∧
    (run_conversation env p cs).messages.head? = some systemMessage ∧
    ((run_conversation env p cs).messages.drop 2).length ≤ 1 ∧
    (∀ m ∈ (run_conversation env p cs).messages.drop 2,
      m.role = "function" ∧ m.name = some "search_and_parse") ∧
    (∀ pre post, cs = pre ++ post →
      (run_conversation env p pre).messages <+:
        (run_conversation env p cs).messages) ∧
    (run_conversation env p cs).createCalls.head? =
      some { msgs := initMessages p, toolsDeclared := true } ∧
    ∀ call ∈ (run_conversation env p cs).createCalls.tail,
      call.toolsDeclared = false ∧
        call.msgs = (run_conversation env p cs).messages := by
  have hmono : ∀ pre post, cs = pre ++ post →
      (run_conversation env p pre).messages <+:
        (run_conversation env p cs).messages := by
    intro pre post hsplit
    subst hsplit
    exact run_messages_mono env p pre post
  rcases run_reached env p cs with ⟨h1, h2, h3, h4⟩ | ⟨h1, q, h2, h3, h4⟩
  · refine ⟨by rw [h2], by rw [h2]; rfl, by rw [h2]; simp [initMessages], ?_, hmono,
      by rw [h4]; rfl, ?_⟩
    · rw [h2]
      intro m hm
      simp [initMessages] at hm
    · rw [h4]
      intro call hc
      simp at hc
  · refine ⟨by rw [h2]; exact List.prefix_append _ _, by rw [h2]; rfl, ?_, ?_,
      hmono, by rw [h4]; rfl, ?_⟩
    · rw [h2]
      simp [initMessages]
    · rw [h2]
      intro m hm
      simp [initMessages, toolMessage] at hm
      rw [hm]
      exact ⟨rfl, rfl⟩
    · rw [h2, h4]
      intro call hc
      simp at hc
      rw [hc]
      exact ⟨rfl, rfl⟩

/-- Claim C9, witness: the conversation-state facts on a concrete
conversation that honours a tool call. -/
theorem C9_conversation_state_witness :
    initMessages "p" <+: (run_conversation env1 "p"
      [{ content := none,
         toolCall := some { name := "search_and_parse", query := some "q" } }]).messages ∧
    ((run_conversation env1 "p"
      [{ content := none,
         toolCall := some { name := "search_and_parse", query := some "q" } }]).messages.drop 2).length ≤ 1 ∧
    (run_conversation env1 "p"
      [{ content := none,
         toolCall := some { name := "search_and_parse", query := some "q" } }]).createCalls.head? =
      some { msgs := initMessages "p", toolsDeclared := true } := by
  have h := C9_conversation_state env1 "p"
    [{ content := none,
       toolCall := some { name := "search_and_parse", query := some "q" } }]
  exact ⟨h.1, h.2.2.1, h.2.2.2.2.2.1⟩

/-- Claim C10: after the honoured tool call, iteration over model stream 1
resumes once stream 2 is exhausted: the text fragments of the chunks after
the honoured one are emitted after the whole tool block (whose final
fragments are stream 2's text), so the output stream need not end with
stream 2's content. -/
theorem C10_stream1_resumes (env : Env) (p : String) (q : Option String)
    (pre post : List Chunk)
    (h : (run_conversation env p pre).search_performed = false) :
    (run_conversation env p
        (pre ++ ⟨none, some ⟨"search_and_parse", q⟩⟩ :: post)).output =
      (run_conversation env p pre).output ++
        toolUseFrags env q (run_conversation env p pre).messages ++
        post.filterMap Chunk.content := by
  rw [run_honored_split env p q pre post h]

/-- Claim C10, witness: stream-1 text after the honoured chunk appears after
stream 2's content in the output. -/
theorem C10_stream1_resumes_witness :
    (run_conversation env1 "p"
        [{ content := none,
           toolCall := some { name := "search_and_parse", query := some "q" } },
         { content := some "tail1", toolCall := none },
         { content := some "tail2", toolCall := none }]).output =
      ["\nSearching the web for: q\n",
       "Found relevant information from: http://x\n",
       "Summary: Lorem...\n\n",
       "\nFinal response incorporating search results:\n",
       "ans", "tail1", "tail2"] := by
  have h := C10_stream1_resumes env1 "p" (some "q") []
    [{ content := some "tail1", toolCall := none },
     { content := some "tail2", toolCall := none }] rfl
  exact h.trans rfl
